import Mathlib

/-
  Verification development for the "Add to Google Wallet" event-ticket
  service (src/main.py and src/utils/event_ticket.py).

  The embedding models Python JSON-like values as the inductive type JVal,
  Python dicts as association lists (keys unique, first-match lookup), and
  code that can raise as functions into Except Unit.  The external vendor
  client (googleapiclient execute calls and JWT signing) is abstracted as
  oracle outcomes supplied through a Backend record.
-/

namespace Wallet

/-- A Python/JSON value: null, booleans, numbers, strings, lists, dicts. -/
inductive JVal where
  | null : JVal
  | bool : Bool → JVal
  | num  : Int → JVal
  | str  : String → JVal
  | arr  : List JVal → JVal
  | obj  : List (String × JVal) → JVal
deriving Repr

/-- A Python dict with string keys, modelled as an association list. -/
abbrev PyDict := List (String × JVal)

/-- Dict key lookup (d.get(k) / d[k] semantics on the association list). -/
def dictLookup : PyDict → String → Option JVal
  | [], _ => none
  | p :: ps, k => if p.1 = k then some p.2 else dictLookup ps k

/-- Python "k in d" for a dict. -/
def dictContains (m : PyDict) (k : String) : Bool :=
  (dictLookup m k).isSome

/-- Python dict item assignment d[k] = v: replace if present, else append. -/
def dictSet (m : PyDict) (k : String) (v : JVal) : PyDict :=
  if (dictLookup m k).isSome then
    m.map (fun p => ((p.1 : String), if p.1 = k then v else p.2))
  else
    m ++ [(k, v)]

/-- Python dict merge via unpacking: keys of d in order, values overridden
by v where present, followed by the keys of v that are new. -/
def mergePy (d v : PyDict) : PyDict :=
  d.map (fun p => ((p.1 : String), ((dictLookup v p.1).getD p.2 : JVal)))
    ++ v.filter (fun p => (dictLookup d p.1).isNone)

/-- Python substring test "pat in s" for strings. -/
def strContains (s pat : String) : Bool :=
  (s.splitOn pat).length ≠ 1

/-- Python equality of a value against a string constant (x == k). -/
def eqPyStr (k : String) : JVal → Bool
  | .str s => s = k
  | _ => false

/-- Python truthiness of a JSON value. -/
def pyTruthy : JVal → Bool
  | .null => false
  | .bool b => b
  | .num n => n ≠ 0
  | .str s => s ≠ ""
  | .arr xs => ¬ xs.isEmpty
  | .obj m => ¬ m.isEmpty

/-- Python "k in data" on an arbitrary value; raises TypeError (Except
error) on values that support no membership test. -/
def pyContains (data : JVal) (k : String) : Except Unit Bool :=
  match data with
  | .obj m => .ok (dictContains m k)
  | .arr xs => .ok (xs.any (eqPyStr k))
  | .str s => .ok (strContains s k)
  | _ => .error ()

/-- Python subscript data[k] with a string key; raises unless data is a
dict holding the key. -/
def pySubscript (data : JVal) (k : String) : Except Unit JVal :=
  match data with
  | .obj m =>
    match dictLookup m k with
    | some v => .ok v
    | none => .error ()
  | _ => .error ()

/-! Field defaults of handle_options in src/main.py. -/

/-- The nested seat default of handle_options. -/
def seat_defaults : PyDict :=
  [("row", .str "0"), ("seat_no", .str "0")]

/-- The full defaults dict of handle_options in src/main.py. -/
def defaults : PyDict :=
  [ ("event_name", .str "Event Name"),
    ("banner", .str "https://farm4.staticflickr.com/3723/11177041115_6e6a3b6f49_o.jpg"),
    ("main_image", .str "http://farm4.staticflickr.com/3738/12440799783_3dc3c20606_b.jpg"),
    ("google_map_url", .str "http://maps.google.com/"),
    ("header_text", .str "Text module header"),
    ("body_text", .str "Text module body"),
    ("phone_number", .str "9876543210"),
    ("section", .str "0"),
    ("issuer_name", .str "Issuer Name"),
    ("gate", .str "0"),
    ("ticket_number", .str "ABC123456789"),
    ("ticket_holder_name", .str "Ticket Holder Name"),
    ("seat", .obj seat_defaults) ]

/-- One step of the inner loop of the nested-dict branch of
handle_options: if the caller supplied the empty string for this sub key,
put the default back. -/
def fixStep (v : PyDict) (acc : PyDict) (p : String × JVal) : PyDict :=
  match dictLookup v p.1 with
  | some (JVal.str s) => if s = "" then dictSet acc p.1 p.2 else acc
  | _ => acc

/-- The inner loop of the nested-dict branch of handle_options: for each
sub key of the default sub dict, if the caller supplied the empty string
for it, put the default back. -/
def fixEmptySub (dv v merged : PyDict) : PyDict :=
  dv.foldl (fixStep v) merged

/-- One iteration of the loop body of handle_options for key k with
default dval: dispatch on membership and the type of the supplied value.
The nested-dict branch raises (TypeError) when the default for the key is
not itself a dict, faithful to the dict-unpacking in the source. -/
def normalize_field (data : JVal) (k : String) (dval : JVal) : Except Unit JVal := do
  let present ← pyContains data k
  if present then
    let value ← pySubscript data k
    match value with
    | .str s => if s = "" then pure dval else pure (.str s)
    | .obj vo =>
      match dval with
      | .obj dvo => pure (.obj (fixEmptySub dvo vo (mergePy dvo vo)))
      | _ => .error ()
    | v => pure v
  else
    pure dval

/-- The loop of handle_options over the defaults items. -/
def normalize_fields (data : JVal) : PyDict → Except Unit PyDict
  | [] => .ok []
  | p :: ps => do
    let v ← normalize_field data p.1 p.2
    let rest ← normalize_fields data ps
    .ok ((p.1, v) :: rest)

/-- handle_options of src/main.py: merge the caller data over the
defaults; may raise for ill-typed inputs, and the caller catches that. -/
def handle_options (data : JVal) : Except Unit PyDict :=
  normalize_fields data defaults

/-- The value the nested-seat branch produces for one sub key, as a
function of what the caller supplied for it: missing keeps the default,
the empty string restores the default, any other string wins, and any
non-string value is copied verbatim. -/
def subResult (sm : PyDict) (sub : String) (sd : JVal) : JVal :=
  match dictLookup sm sub with
  | none => sd
  | some (JVal.str s) => if s = "" then sd else .str s
  | some w => w

/-! The vendor client (src/utils/event_ticket.py).  Every execute() call
against the wallet API is abstracted as an oracle outcome. -/

/-- Outcome of one vendor execute() call: a JSON response, an HttpError
with a status code and error details, or some other exception. -/
inductive CallResult where
  | ok : JVal → CallResult
  | httpError : Int → JVal → CallResult
  | exn : CallResult
deriving Repr

namespace DemoEventTicket

/-- The data keys read while building the new class body in create_class;
a missing key raises KeyError before the insert call. -/
def class_data_ok (data : PyDict) : Bool :=
  dictContains data "event_name" && dictContains data "issuer_name"

/-- The data reads while building the new object body in create_object:
plain keys plus the two seat sub keys; a missing key raises KeyError and a
non-dict seat raises TypeError before the insert call. -/
def object_data_ok (data : PyDict) : Bool :=
  dictContains data "banner" && dictContains data "header_text" &&
  dictContains data "body_text" && dictContains data "google_map_url" &&
  dictContains data "phone_number" && dictContains data "main_image" &&
  (match dictLookup data "seat" with
   | some (.obj sm) => dictContains sm "seat_no" && dictContains sm "row"
   | _ => false) &&
  dictContains data "section" && dictContains data "gate" &&
  dictContains data "ticket_holder_name" && dictContains data "ticket_number"

/-- DemoEventTicket.create_class: existence check, then insert.  getRes is
the outcome of the get call, insertRes of the insert call; an uncaught
exception (including an HttpError of the insert, which the source does not
catch) is the Except error. -/
def create_class (getRes insertRes : CallResult) (issuer_id class_suffix : String)
    (data : PyDict) : Except Unit PyDict :=
  match getRes with
  | .ok _ =>
    .ok [ ("status", .str "exists"),
          ("message", .str "The class already exists."),
          ("issuer_id", .str issuer_id),
          ("class_suffix", .str class_suffix),
          ("class_id", .str (issuer_id ++ "." ++ class_suffix)),
          ("has_error", .bool true) ]
  | .exn => .error ()
  | .httpError code details =>
    if code = 400 then
      .ok [ ("status", .str "invalid_request"),
            ("message", .str "Invalid resource ID."),
            ("error", details),
            ("has_error", .bool true) ]
    else if code ≠ 404 then
      .ok [ ("status", .str "error"),
            ("message", .str "An unexpected error occurred while checking class existence. Please try again later."),
            ("has_error", .bool true) ]
    else
      if class_data_ok data then
        match insertRes with
        | .ok response =>
          .ok [ ("status", .str "created"),
                ("message", .str "Class successfully created."),
                ("issuer_id", .str issuer_id),
                ("class_suffix", .str class_suffix),
                ("class_id", .str (issuer_id ++ "." ++ class_suffix)),
                ("response", response),
                ("has_error", .bool false) ]
        | _ => .error ()
      else .error ()

/-- DemoEventTicket.create_object: existence check, then insert, mutating
the response_details dict along the way.  An insert HttpError other than
404 is swallowed and the initial details (status unknown) are returned, as
in the source. -/
def create_object (getRes insertRes : CallResult)
    (issuer_id class_suffix object_suffix : String) (data : PyDict) :
    Except Unit PyDict :=
  let object_id := issuer_id ++ "." ++ object_suffix
  let rd : PyDict :=
    [ ("object_id", .str object_id),
      ("status", .str "unknown"),
      ("message", .str ""),
      ("has_error", .bool true) ]
  match getRes with
  | .ok _ =>
    .ok (dictSet (dictSet (dictSet rd
          "status" (.str "exists"))
          "message" (.str ("Object " ++ object_id ++ " already exists!")))
          "has_error" (.bool true))
  | .exn => .error ()
  | .httpError code details =>
    if code = 400 then
      .ok [ ("status", .str "invalid_request"),
            ("message", .str "Invalid resource ID."),
            ("error", details),
            ("has_error", .bool true) ]
    else if code ≠ 404 then
      .ok (dictSet (dictSet (dictSet (dictSet rd
            "error" details)
            "status" (.str "error"))
            "message" (.str "An error occurred while checking the object existence."))
            "has_error" (.bool true))
    else
      if object_data_ok data then
        match insertRes with
        | .ok response =>
          .ok (dictSet (dictSet (dictSet (dictSet rd
                "status" (.str "created"))
                "message" (.str "Object created successfully."))
                "response" response)
                "has_error" (.bool false))
        | .httpError icode _ =>
          if icode = 404 then
            .ok (dictSet (dictSet (dictSet rd
                  "status" (.str "class_not_found"))
                  "message" (.str ("Wallet Object Class " ++ issuer_id ++ "." ++ class_suffix ++ " not found.")))
                  "has_error" (.bool true))
          else
            .ok rd
        | .exn => .error ()
      else .error ()

/-- DemoEventTicket.create_jwt_existing_objects: signs a JWT over the
existing object reference and wraps the save link in a success envelope.
The signing step is abstracted as an opaque token string. -/
def create_jwt_existing_objects (token : String)
    (_issuer_id _object_suffix _class_suffix : String) : PyDict :=
  [ ("status", .str "success"),
    ("message", .str "JWT successfully generated."),
    ("wallet_link", .str ("https://pay.google.com/gp/v/save/" ++ token)) ]

end DemoEventTicket

/-! The Flask endpoint create_class in src/main.py (route /create-ticket/). -/

/-- The oracle outcomes of the outbound vendor calls a single request can
make, plus the opaque token of the JWT signing step. -/
structure Backend where
  classGet : CallResult
  classInsert : CallResult
  objectGet : CallResult
  objectInsert : CallResult
  token : String

/-- An inbound request: the three query parameters as Flask args.get
returns them, and the parsed JSON body (none when request.get_json
raises because the body is absent or undecodable). -/
structure HttpRequest where
  issuer_id : Option String
  class_suffix : Option String
  object_suffix : Option String
  body : Option JVal

/-- An HTTP response: the jsonify body and the status code. -/
structure HttpResponse where
  body : PyDict
  status : Nat
deriving Repr

/-- The outbound wallet operations a request can attempt, in order. -/
inductive WalletOp where
  | createClass
  | createObject
  | createJwtExisting
deriving Repr, DecidableEq

/-- Python truthiness test of args.get: missing or empty string. -/
def argMissing : Option String → Bool
  | none => true
  | some s => s = ""

/-- The missing_params list built by the endpoint, in source order. -/
def missing_params (req : HttpRequest) : List String :=
  (if argMissing req.issuer_id then ["issuer_id"] else []) ++
  (if argMissing req.class_suffix then ["class_suffix"] else []) ++
  (if argMissing req.object_suffix then ["object_suffix"] else [])

/-- Lines 37 to 47 of src/main.py: data starts as an empty dict, the body
is normalized inside a try, and on any exception the empty dict is
normalized instead. -/
def getData (body : Option JVal) : Except Unit PyDict :=
  match body with
  | none => handle_options (.obj [])
  | some j =>
    match handle_options j with
    | .ok d => .ok d
    | .error _ => handle_options (.obj [])

/-- The fixed 500 body of the exception handler of the endpoint. -/
def errorBody : PyDict :=
  [("error", .str "An error occurred while creating the class.")]

/-- The Flask route handler create_class of src/main.py, paired with the
trace of outbound wallet operations it attempted.  The three vendor calls
run unconditionally in sequence inside the try block; only afterwards is
the has_error flag of the object result inspected. -/
def create_ticket (req : HttpRequest) (b : Backend) :
    HttpResponse × List WalletOp :=
  let mp := missing_params req
  if mp ≠ [] then
    (⟨[ ("error", .str "Missing parameters"),
        ("missing", .arr (mp.map JVal.str)),
        ("message", .str "Please provide the required parameters: issuer_id, class_suffix, object_suffix.") ],
      400⟩, [])
  else
    let iid := req.issuer_id.getD ""
    let cs := req.class_suffix.getD ""
    let os := req.object_suffix.getD ""
    match getData req.body with
    | .error _ => (⟨[], 500⟩, [])
    | .ok data =>
      match DemoEventTicket.create_class b.classGet b.classInsert iid cs data with
      | .error _ => (⟨errorBody, 500⟩, [.createClass])
      | .ok _classRes =>
        match DemoEventTicket.create_object b.objectGet b.objectInsert iid cs os data with
        | .error _ => (⟨errorBody, 500⟩, [.createClass, .createObject])
        | .ok objRes =>
          let jwtRes := DemoEventTicket.create_jwt_existing_objects b.token iid os cs
          match dictLookup objRes "has_error" with
          | none => (⟨errorBody, 500⟩, [.createClass, .createObject, .createJwtExisting])
          | some v =>
            if pyTruthy v then
              (⟨objRes, 200⟩, [.createClass, .createObject, .createJwtExisting])
            else
              (⟨jwtRes, 200⟩, [.createClass, .createObject, .createJwtExisting])

/-! Association-list lemmas for the dict model. -/

theorem dictLookup_append (a b : PyDict) (k : String) :
    dictLookup (a ++ b) k =
      match dictLookup a k with
      | some v => some v
      | none => dictLookup b k := by
  induction a with
  | nil => simp [dictLookup]
  | cons p ps ih =>
    by_cases h : p.1 = k
    · simp [dictLookup, h]
    · simp [dictLookup, h, ih]

theorem dictLookup_mapEntries (f : String → JVal → JVal) (m : PyDict) (k : String) :
    dictLookup (m.map (fun p => ((p.1 : String), f p.1 p.2))) k =
      (dictLookup m k).map (f k) := by
  induction m with
  | nil => simp [dictLookup]
  | cons p ps ih =>
    by_cases h : p.1 = k
    · subst h; simp [dictLookup, ih]
    · simp [dictLookup, h, ih]

theorem dictLookup_filterKeys (q : String → Bool) (m : PyDict) (k : String) :
    dictLookup (m.filter (fun p => q p.1)) k =
      if q k then dictLookup m k else none := by
  induction m with
  | nil => simp [dictLookup]
  | cons p ps ih =>
    by_cases hq : q p.1
    · by_cases hk : p.1 = k
      · subst hk; simp [List.filter_cons, hq, dictLookup]
      · simp [List.filter_cons, hq, dictLookup, hk, ih]
    · by_cases hk : p.1 = k
      · subst hk; simp [List.filter_cons, hq, dictLookup, ih]
      · simp [List.filter_cons, hq, dictLookup, hk, ih]

theorem dictLookup_dictSet_self (m : PyDict) (k : String) (v : JVal) :
    dictLookup (dictSet m k v) k = some v := by
  unfold dictSet
  by_cases h : (dictLookup m k).isSome
  · rw [if_pos h]
    have hm := dictLookup_mapEntries (fun k1 v1 => if k1 = k then v else v1) m k
    simp only at hm
    rw [hm]
    obtain ⟨w, hw⟩ := Option.isSome_iff_exists.mp h
    simp [hw]
  · rw [if_neg h, dictLookup_append]
    have hn : dictLookup m k = none := Option.not_isSome_iff_eq_none.mp h
    simp [hn, dictLookup]

theorem dictLookup_dictSet_ne (m : PyDict) (k kq : String) (v : JVal)
    (h : kq ≠ k) : dictLookup (dictSet m k v) kq = dictLookup m kq := by
  unfold dictSet
  by_cases hs : (dictLookup m k).isSome
  · rw [if_pos hs]
    have hm := dictLookup_mapEntries (fun k1 v1 => if k1 = k then v else v1) m kq
    simp only at hm
    rw [hm]
    cases hq : dictLookup m kq
    · simp
    · simp [h]
  · rw [if_neg hs, dictLookup_append]
    cases hq : dictLookup m kq
    · simp [dictLookup]
      exact fun hh => h hh.symm
    · simp

theorem dictLookup_mergePy_of_left (d v : PyDict) (k : String) (dv : JVal)
    (hd : dictLookup d k = some dv) :
    dictLookup (mergePy d v) k = some ((dictLookup v k).getD dv) := by
  unfold mergePy
  rw [dictLookup_append]
  have hm := dictLookup_mapEntries (fun k1 v1 => (dictLookup v k1).getD v1) d k
  simp only at hm
  rw [hm, hd]
  simp

theorem dictLookup_mergePy_of_absent (d v : PyDict) (k : String)
    (hd : dictLookup d k = none) :
    dictLookup (mergePy d v) k = dictLookup v k := by
  unfold mergePy
  rw [dictLookup_append]
  have hm := dictLookup_mapEntries (fun k1 v1 => (dictLookup v k1).getD v1) d k
  simp only at hm
  rw [hm, hd]
  have hf := dictLookup_filterKeys (fun k1 => (dictLookup d k1).isNone) v k
  simp only at hf
  rw [hf]
  simp [hd]

theorem dictLookup_isSome_of_mem (m : PyDict) (k : String) (v : JVal)
    (h : (k, v) ∈ m) : (dictLookup m k).isSome := by
  induction m with
  | nil => simp at h
  | cons p ps ih =>
    rcases List.mem_cons.mp h with h1 | h1
    · simp [dictLookup, ← h1]
    · by_cases hk : p.1 = k
      · simp [dictLookup, hk]
      · simp [dictLookup, hk, ih h1]

/-! Computation lemmas for one loop iteration of handle_options. -/

theorem normalize_field_absent (m : PyDict) (k : String) (dv : JVal)
    (h : dictLookup m k = none) :
    normalize_field (.obj m) k dv = .ok dv := by
  simp [normalize_field, pyContains, dictContains, h, Bind.bind, Except.bind,
    Pure.pure, Except.pure]

theorem normalize_field_str (m : PyDict) (k : String) (dv : JVal) (s : String)
    (h : dictLookup m k = some (.str s)) :
    normalize_field (.obj m) k dv = .ok (if s = "" then dv else .str s) := by
  by_cases hs : s = "" <;>
    simp [normalize_field, pyContains, dictContains, pySubscript, h, hs,
      Bind.bind, Except.bind, Pure.pure, Except.pure]

theorem normalize_field_obj (m : PyDict) (k : String) (dvo vo : PyDict)
    (h : dictLookup m k = some (.obj vo)) :
    normalize_field (.obj m) k (.obj dvo) =
      .ok (.obj (fixEmptySub dvo vo (mergePy dvo vo))) := by
  simp [normalize_field, pyContains, dictContains, pySubscript, h,
    Bind.bind, Except.bind, Pure.pure, Except.pure]

theorem normalize_field_obj_bad (m : PyDict) (k : String) (dv : JVal) (vo : PyDict)
    (h : dictLookup m k = some (.obj vo)) (hdv : ∀ w, dv ≠ .obj w) :
    normalize_field (.obj m) k dv = .error () := by
  cases dv with
  | obj w => exact absurd rfl (hdv w)
  | null | bool b | num n | str s | arr xs =>
    simp [normalize_field, pyContains, dictContains, pySubscript, h,
      Bind.bind, Except.bind, Pure.pure, Except.pure]

theorem normalize_field_other (m : PyDict) (k : String) (dv v : JVal)
    (h : dictLookup m k = some v) (hs : ∀ s, v ≠ .str s)
    (ho : ∀ w, v ≠ .obj w) :
    normalize_field (.obj m) k dv = .ok v := by
  cases v with
  | str s => exact absurd rfl (hs s)
  | obj w => exact absurd rfl (ho w)
  | null | bool b | num n | arr xs =>
    simp [normalize_field, pyContains, dictContains, pySubscript, h,
      Bind.bind, Except.bind, Pure.pure, Except.pure]

theorem normalize_field_nonobj (data : JVal) (hno : ∀ m, data ≠ .obj m)
    (k : String) (dv : JVal) :
    normalize_field data k dv = .error () ∨ normalize_field data k dv = .ok dv := by
  cases data with
  | obj m => exact absurd rfl (hno m)
  | null =>
    left; simp [normalize_field, pyContains, Bind.bind, Except.bind]
  | bool b =>
    left; simp [normalize_field, pyContains, Bind.bind, Except.bind]
  | num n =>
    left; simp [normalize_field, pyContains, Bind.bind, Except.bind]
  | str s =>
    by_cases h : strContains s k
    · left
      simp [normalize_field, pyContains, pySubscript, h, Bind.bind, Except.bind]
    · right
      simp [normalize_field, pyContains, pySubscript, h, Bind.bind, Except.bind,
        Pure.pure, Except.pure]
  | arr xs =>
    by_cases h : xs.any (eqPyStr k)
    · left
      simp [normalize_field, pyContains, pySubscript, h, Bind.bind, Except.bind]
    · right
      simp [normalize_field, pyContains, pySubscript, h, Bind.bind, Except.bind,
        Pure.pure, Except.pure]

/-- The per-field routine only inspects the input dict through lookup of
its own key, so two dicts agreeing there normalize the field equally. -/
theorem normalize_field_congr (m1 m2 : PyDict) (k : String) (dv : JVal)
    (h : dictLookup m2 k = dictLookup m1 k) :
    normalize_field (.obj m2) k dv = normalize_field (.obj m1) k dv := by
  simp [normalize_field, pyContains, dictContains, pySubscript, h]

/-! Structure lemmas for the loop over the defaults items. -/

theorem normalize_fields_cons (data : JVal) (p : String × JVal) (ps : PyDict) :
    normalize_fields data (p :: ps) =
      Except.bind (normalize_field data p.1 p.2) (fun v =>
        Except.bind (normalize_fields data ps) (fun rest =>
          .ok ((p.1, v) :: rest))) := rfl

theorem normalize_fields_keys (data : JVal) :
    ∀ (ps : PyDict) (r : PyDict), normalize_fields data ps = .ok r →
      r.map Prod.fst = ps.map Prod.fst := by
  intro ps
  induction ps with
  | nil =>
    intro r h
    simp [normalize_fields] at h
    simp [← h]
  | cons p ps ih =>
    intro r h
    rw [normalize_fields_cons] at h
    cases hv : normalize_field data p.1 p.2 with
    | error e => rw [hv] at h; simp [Except.bind] at h
    | ok v =>
      rw [hv] at h
      cases hr : normalize_fields data ps with
      | error e => rw [hr] at h; simp [Except.bind] at h
      | ok rest =>
        rw [hr] at h
        simp [Except.bind] at h
        simp [← h, ih rest hr]

theorem normalize_fields_lookup (data : JVal) :
    ∀ (ps : PyDict) (r : PyDict) (k : String) (dv : JVal),
      normalize_fields data ps = .ok r → dictLookup ps k = some dv →
      ∃ v, normalize_field data k dv = .ok v ∧ dictLookup r k = some v := by
  intro ps
  induction ps with
  | nil => intro r k dv _ hk; simp [dictLookup] at hk
  | cons p ps ih =>
    intro r k dv h hk
    rw [normalize_fields_cons] at h
    cases hv : normalize_field data p.1 p.2 with
    | error e => rw [hv] at h; simp [Except.bind] at h
    | ok v =>
      rw [hv] at h
      cases hr : normalize_fields data ps with
      | error e => rw [hr] at h; simp [Except.bind] at h
      | ok rest =>
        rw [hr] at h
        simp [Except.bind] at h
        by_cases hpk : p.1 = k
        · rw [dictLookup, if_pos hpk] at hk
          have hdv : dv = p.2 := by
            have := Option.some_injective _ hk
            exact this.symm
          refine ⟨v, ?_, ?_⟩
          · rw [hdv, ← hpk]; exact hv
          · rw [← h, dictLookup, if_pos hpk]
        · rw [dictLookup, if_neg hpk] at hk
          obtain ⟨v2, hnf, hlr⟩ := ih rest k dv hr hk
          refine ⟨v2, hnf, ?_⟩
          rw [← h, dictLookup, if_neg hpk]
          exact hlr

theorem normalize_fields_all_ok (data : JVal) :
    ∀ (ps : PyDict),
      (∀ p ∈ ps, ∃ v, normalize_field data p.1 p.2 = .ok v) →
      ∃ r, normalize_fields data ps = .ok r := by
  intro ps
  induction ps with
  | nil => intro _; exact ⟨[], rfl⟩
  | cons p ps ih =>
    intro h
    obtain ⟨v, hv⟩ := h p (List.mem_cons_self p ps)
    obtain ⟨rest, hrest⟩ := ih (fun q hq => h q (List.mem_cons_of_mem p hq))
    refine ⟨(p.1, v) :: rest, ?_⟩
    rw [normalize_fields_cons, hv, hrest]
    rfl

theorem normalize_fields_id_or_err (data : JVal) :
    ∀ (ps : PyDict),
      (∀ p ∈ ps, normalize_field data p.1 p.2 = .error () ∨
        normalize_field data p.1 p.2 = .ok p.2) →
      normalize_fields data ps = .error () ∨ normalize_fields data ps = .ok ps := by
  intro ps
  induction ps with
  | nil => intro _; right; rfl
  | cons p ps ih =>
    intro h
    rcases h p (List.mem_cons_self p ps) with hv | hv
    · left; rw [normalize_fields_cons, hv]; rfl
    · rcases ih (fun q hq => h q (List.mem_cons_of_mem p hq)) with hr | hr
      · left; rw [normalize_fields_cons, hv, hr]; rfl
      · right; rw [normalize_fields_cons, hv, hr]; rfl

/-- Normalizing the empty dict keeps every default. -/
theorem handle_options_empty : handle_options (.obj []) = .ok defaults := rfl

/-- The congruence lifted over the whole loop. -/
theorem normalize_fields_congr (m1 m2 : PyDict) :
    ∀ (ps : PyDict), (∀ p ∈ ps, dictLookup m2 p.1 = dictLookup m1 p.1) →
      normalize_fields (.obj m2) ps = normalize_fields (.obj m1) ps := by
  intro ps
  induction ps with
  | nil => intro _; rfl
  | cons p ps ih =>
    intro h
    rw [normalize_fields_cons, normalize_fields_cons,
      normalize_field_congr m1 m2 p.1 p.2 (h p (List.mem_cons_self p ps)),
      ih (fun q hq => h q (List.mem_cons_of_mem p hq))]

/-! Lemmas about the inner seat loop. -/

theorem fixStep_lookup_ne (v acc : PyDict) (p : String × JVal) (kq : String)
    (h : kq ≠ p.1) : dictLookup (fixStep v acc p) kq = dictLookup acc kq := by
  unfold fixStep
  cases hv : dictLookup v p.1 with
  | none => rfl
  | some w =>
    cases w with
    | str s =>
      by_cases hs : s = ""
      · simp [hs, dictLookup_dictSet_ne _ _ _ _ h]
      · simp [hs]
    | null => rfl
    | bool b => rfl
    | num n => rfl
    | arr xs => rfl
    | obj o => rfl

theorem fixStep_lookup_empty (v acc : PyDict) (k : String) (d : JVal)
    (h : dictLookup v k = some (.str "")) :
    dictLookup (fixStep v acc (k, d)) k = some d := by
  simp [fixStep, h, dictLookup_dictSet_self]

theorem fixStep_eq_of_ne (v acc : PyDict) (k : String) (d : JVal)
    (h : dictLookup v k ≠ some (.str "")) :
    fixStep v acc (k, d) = acc := by
  unfold fixStep
  cases hv : dictLookup v k with
  | none => rfl
  | some w =>
    cases w with
    | str s =>
      by_cases hs : s = ""
      · subst hs; exact absurd hv h
      · simp [hs]
    | null => rfl
    | bool b => rfl
    | num n => rfl
    | arr xs => rfl
    | obj o => rfl

/-- What the seat branch computes for the two default sub keys, for an
arbitrary caller-supplied seat dict. -/
theorem fixEmptySub_seat_lookup (sm : PyDict) :
    dictLookup (fixEmptySub seat_defaults sm (mergePy seat_defaults sm)) "row" =
      some (subResult sm "row" (.str "0")) ∧
    dictLookup (fixEmptySub seat_defaults sm (mergePy seat_defaults sm)) "seat_no" =
      some (subResult sm "seat_no" (.str "0")) := by
  have hfold : fixEmptySub seat_defaults sm (mergePy seat_defaults sm) =
      fixStep sm (fixStep sm (mergePy seat_defaults sm) ("row", .str "0"))
        ("seat_no", .str "0") := rfl
  have hrowM : dictLookup (mergePy seat_defaults sm) "row" =
      some ((dictLookup sm "row").getD (.str "0")) :=
    dictLookup_mergePy_of_left _ _ _ _ (by rfl)
  have hsnM : dictLookup (mergePy seat_defaults sm) "seat_no" =
      some ((dictLookup sm "seat_no").getD (.str "0")) :=
    dictLookup_mergePy_of_left _ _ _ _ (by rfl)
  constructor
  · rw [hfold, fixStep_lookup_ne _ _ _ _ (by decide)]
    cases hr : dictLookup sm "row" with
    | none =>
      rw [fixStep_eq_of_ne _ _ _ _ (by simp [hr]), hrowM, hr]
      simp [subResult, hr]
    | some w =>
      cases w with
      | str s =>
        by_cases hs : s = ""
        · subst hs
          rw [fixStep_lookup_empty _ _ _ _ hr]
          simp [subResult, hr]
        · rw [fixStep_eq_of_ne _ _ _ _ (by simp [hr, hs]), hrowM, hr]
          simp [subResult, hr, hs]
      | null =>
        rw [fixStep_eq_of_ne _ _ _ _ (by simp [hr]), hrowM, hr]
        simp [subResult, hr]
      | bool b =>
        rw [fixStep_eq_of_ne _ _ _ _ (by simp [hr]), hrowM, hr]
        simp [subResult, hr]
      | num n =>
        rw [fixStep_eq_of_ne _ _ _ _ (by simp [hr]), hrowM, hr]
        simp [subResult, hr]
      | arr xs =>
        rw [fixStep_eq_of_ne _ _ _ _ (by simp [hr]), hrowM, hr]
        simp [subResult, hr]
      | obj o =>
        rw [fixStep_eq_of_ne _ _ _ _ (by simp [hr]), hrowM, hr]
        simp [subResult, hr]
  · rw [hfold]
    have hinner : dictLookup
        (fixStep sm (mergePy seat_defaults sm) ("row", .str "0")) "seat_no" =
        dictLookup (mergePy seat_defaults sm) "seat_no" :=
      fixStep_lookup_ne _ _ _ _ (by decide)
    cases hsn : dictLookup sm "seat_no" with
    | none =>
      rw [fixStep_eq_of_ne _ _ _ _ (by simp [hsn]), hinner, hsnM, hsn]
      simp [subResult, hsn]
    | some w =>
      cases w with
      | str s =>
        by_cases hs : s = ""
        · subst hs
          rw [fixStep_lookup_empty _ _ _ _ hsn]
          simp [subResult, hsn]
        · rw [fixStep_eq_of_ne _ _ _ _ (by simp [hsn, hs]), hinner, hsnM, hsn]
          simp [subResult, hsn, hs]
      | null =>
        rw [fixStep_eq_of_ne _ _ _ _ (by simp [hsn]), hinner, hsnM, hsn]
        simp [subResult, hsn]
      | bool b =>
        rw [fixStep_eq_of_ne _ _ _ _ (by simp [hsn]), hinner, hsnM, hsn]
        simp [subResult, hsn]
      | num n =>
        rw [fixStep_eq_of_ne _ _ _ _ (by simp [hsn]), hinner, hsnM, hsn]
        simp [subResult, hsn]
      | arr xs =>
        rw [fixStep_eq_of_ne _ _ _ _ (by simp [hsn]), hinner, hsnM, hsn]
        simp [subResult, hsn]
      | obj o =>
        rw [fixStep_eq_of_ne _ _ _ _ (by simp [hsn]), hinner, hsnM, hsn]
        simp [subResult, hsn]

/-! Envelope lemmas for the vendor client model. -/

/-- When the object existence check succeeds, create_object returns the
exists envelope with has_error set, before ever looking at the insert. -/
theorem create_object_exists_envelope (g : JVal) (insertRes : CallResult)
    (iid cs os : String) (data : PyDict) :
    DemoEventTicket.create_object (.ok g) insertRes iid cs os data = .ok
      [ ("object_id", .str (iid ++ "." ++ os)),
        ("status", .str "exists"),
        ("message", .str ("Object " ++ (iid ++ "." ++ os) ++ " already exists!")),
        ("has_error", .bool true) ] := rfl

/-- Every dict create_object can return carries a boolean has_error
entry. -/
theorem create_object_has_error (getRes insertRes : CallResult)
    (iid cs os : String) (data : PyDict) (o : PyDict)
    (h : DemoEventTicket.create_object getRes insertRes iid cs os data = .ok o) :
    dictLookup o "has_error" = some (.bool true) ∨
    dictLookup o "has_error" = some (.bool false) := by
  cases getRes with
  | exn => simp [DemoEventTicket.create_object] at h
  | ok g =>
    simp [DemoEventTicket.create_object] at h
    rw [← h]; left; rfl
  | httpError c d =>
    simp only [DemoEventTicket.create_object] at h
    by_cases h4 : c = 400
    · rw [if_pos h4] at h
      simp at h
      rw [← h]; left; rfl
    · rw [if_neg h4] at h
      by_cases h44 : c ≠ 404
      · rw [if_pos h44] at h
        simp at h
        rw [← h]; left; rfl
      · rw [if_neg h44] at h
        by_cases hd : DemoEventTicket.object_data_ok data
        · rw [if_pos hd] at h
          cases insertRes with
          | ok resp =>
            simp at h
            rw [← h]; right; rfl
          | exn => simp at h
          | httpError ic idet =>
            by_cases hic : ic = 404
            · simp only [if_pos hic] at h
              simp at h
              rw [← h]; left; rfl
            · simp only [if_neg hic] at h
              simp at h
              rw [← h]; left; rfl
        · rw [if_neg hd] at h
          simp at h

/-- Every default entry is either a string default at a key other than
seat, or the seat entry with its nested dict default. -/
theorem defaults_entry_shape :
    ∀ p ∈ defaults, (p.1 ≠ "seat" ∧ ∃ s, p.2 = JVal.str s) ∨
      (p.1 = "seat" ∧ p.2 = .obj seat_defaults) := by
  intro p hp
  simp [defaults] at hp
  rcases hp with h|h|h|h|h|h|h|h|h|h|h|h|h <;> subst h
  · exact Or.inl ⟨by decide, _, rfl⟩
  · exact Or.inl ⟨by decide, _, rfl⟩
  · exact Or.inl ⟨by decide, _, rfl⟩
  · exact Or.inl ⟨by decide, _, rfl⟩
  · exact Or.inl ⟨by decide, _, rfl⟩
  · exact Or.inl ⟨by decide, _, rfl⟩
  · exact Or.inl ⟨by decide, _, rfl⟩
  · exact Or.inl ⟨by decide, _, rfl⟩
  · exact Or.inl ⟨by decide, _, rfl⟩
  · exact Or.inl ⟨by decide, _, rfl⟩
  · exact Or.inl ⟨by decide, _, rfl⟩
  · exact Or.inl ⟨by decide, _, rfl⟩
  · exact Or.inr ⟨rfl, rfl⟩

/-- The seat defaults hold exactly the keys row and seat_no, both "0". -/
theorem seat_defaults_lookup_cases (sub : String) (w : JVal)
    (h : dictLookup seat_defaults sub = some w) :
    (sub = "row" ∨ sub = "seat_no") ∧ w = .str "0" := by
  by_cases h1 : sub = "row"
  · subst h1
    have : w = .str "0" := by
      have h2 : dictLookup seat_defaults "row" = some (.str "0") := rfl
      rw [h2] at h
      exact (Option.some_injective _ h).symm
    exact ⟨Or.inl rfl, this⟩
  · by_cases h2 : sub = "seat_no"
    · subst h2
      have : w = .str "0" := by
        have h3 : dictLookup seat_defaults "seat_no" = some (.str "0") := rfl
        rw [h3] at h
        exact (Option.some_injective _ h).symm
      exact ⟨Or.inr rfl, this⟩
    · exfalso
      have e1 : ("row" = sub) = False := eq_false (fun hh => h1 hh.symm)
      have e2 : ("seat_no" = sub) = False := eq_false (fun hh => h2 hh.symm)
      simp [seat_defaults, dictLookup, e1, e2] at h

/-! The claims about the field normalizer. -/

/-- Claim C3, counterexample: an unknown sub key of the seat mapping IS
copied into the output seat mapping (the claim says a seat sub key absent
from the default seat sub-mapping has no effect on the output). -/
theorem C3_seat_subkey_copied :
    (handle_options (.obj [("seat", .obj [("extra", .str "x")])])).map
        (fun r => dictLookup r "seat") =
      .ok (some (.obj [("row", .str "0"), ("seat_no", .str "0"),
        ("extra", .str "x")])) ∧
    dictLookup seat_defaults "extra" = none ∧
    dictLookup defaults "extra" = none :=
  ⟨rfl, rfl, rfl⟩

/-- Claim C3 (amended): at top level the allow-list behavior holds — the
output keys are exactly the default keys and an unknown top-level key has
no effect on the output — but unknown sub keys of the nested seat mapping
are merged into the output seat mapping rather than dropped. -/
theorem C3_toplevel_allowlist :
    (∀ (m r : PyDict), handle_options (.obj m) = .ok r →
      r.map Prod.fst = defaults.map Prod.fst) ∧
    (∀ (m : PyDict) (k : String) (v : JVal), dictLookup defaults k = none →
      handle_options (.obj (m ++ [(k, v)])) = handle_options (.obj m)) := by
  constructor
  · intro m r h
    exact normalize_fields_keys _ _ _ h
  · intro m k v hk
    unfold handle_options
    apply normalize_fields_congr
    intro p hp
    have hpk : p.1 ≠ k := by
      intro he
      have hsome := dictLookup_isSome_of_mem defaults p.1 p.2 hp
      rw [he, hk] at hsome
      simp at hsome
    have hne : dictLookup [(k, v)] p.1 = none := by
      simp [dictLookup]
      exact fun hh => hpk hh.symm
    rw [dictLookup_append]
    cases hm : dictLookup m p.1 with
    | some w => rfl
    | none => simpa using hne

/-- Claim C3, witness instance of the amended theorem. -/
theorem C3_witness :
    handle_options (.obj [("gate", .str "G"), ("zzz", .num 1)]) =
      handle_options (.obj [("gate", .str "G")]) :=
  C3_toplevel_allowlist.2 [("gate", .str "G")] "zzz" (.num 1) rfl

/-- Claim C4: for every default field, the empty string yields the default
and a non-empty string yields that exact string, both at top level and for
each sub field of the nested seat mapping. -/
theorem C4_string_field_rule :
    (∀ (m r : PyDict) (k : String) (dv : JVal),
       handle_options (.obj m) = .ok r → dictLookup defaults k = some dv →
       (dictLookup m k = some (.str "") → dictLookup r k = some dv) ∧
       (∀ s, s ≠ "" → dictLookup m k = some (.str s) →
         dictLookup r k = some (.str s))) ∧
    (∀ (m r sm : PyDict) (sub : String) (sd : String),
       handle_options (.obj m) = .ok r →
       dictLookup seat_defaults sub = some (.str sd) →
       dictLookup m "seat" = some (.obj sm) →
       ∃ out, dictLookup r "seat" = some (.obj out) ∧
         (dictLookup sm sub = some (.str "") →
           dictLookup out sub = some (.str sd)) ∧
         (∀ s, s ≠ "" → dictLookup sm sub = some (.str s) →
           dictLookup out sub = some (.str s))) := by
  constructor
  · intro m r k dv h hk
    constructor
    · intro hmk
      obtain ⟨v, hnf, hlr⟩ := normalize_fields_lookup (.obj m) defaults r k dv h hk
      have h2 := normalize_field_str m k dv "" hmk
      rw [hnf] at h2
      simp at h2
      rw [hlr, h2]
    · intro s hs hmk
      obtain ⟨v, hnf, hlr⟩ := normalize_fields_lookup (.obj m) defaults r k dv h hk
      have h2 := normalize_field_str m k dv s hmk
      rw [hnf] at h2
      simp [hs] at h2
      rw [hlr, h2]
  · intro m r sm sub sd h hsub hsm
    obtain ⟨hcase, hsd⟩ := seat_defaults_lookup_cases sub (.str sd) hsub
    have hsd0 : sd = "0" := by
      simpa using hsd
    subst hsd0
    obtain ⟨v, hnf, hlr⟩ :=
      normalize_fields_lookup (.obj m) defaults r "seat" (.obj seat_defaults) h rfl
    have h2 := normalize_field_obj m "seat" seat_defaults sm hsm
    rw [hnf] at h2
    simp at h2
    refine ⟨fixEmptySub seat_defaults sm (mergePy seat_defaults sm), ?_, ?_, ?_⟩
    · rw [hlr, h2]
    · intro hempty
      rcases hcase with hr | hr <;> subst hr
      · rw [(fixEmptySub_seat_lookup sm).1]
        simp [subResult, hempty]
      · rw [(fixEmptySub_seat_lookup sm).2]
        simp [subResult, hempty]
    · intro s hs hsval
      rcases hcase with hr | hr <;> subst hr
      · rw [(fixEmptySub_seat_lookup sm).1]
        simp [subResult, hsval, hs]
      · rw [(fixEmptySub_seat_lookup sm).2]
        simp [subResult, hsval, hs]

/-- Claim C4, witness instance: empty event_name falls back to the
default, a non-empty banner survives, and an empty seat row falls back to
its default inside the output seat mapping. -/
theorem C4_witness :
    dictLookup
      [ ("event_name", JVal.str "Event Name"),
        ("banner", JVal.str "B"),
        ("main_image", JVal.str "http://farm4.staticflickr.com/3738/12440799783_3dc3c20606_b.jpg"),
        ("google_map_url", JVal.str "http://maps.google.com/"),
        ("header_text", JVal.str "Text module header"),
        ("body_text", JVal.str "Text module body"),
        ("phone_number", JVal.str "9876543210"),
        ("section", JVal.str "0"),
        ("issuer_name", JVal.str "Issuer Name"),
        ("gate", JVal.str "0"),
        ("ticket_number", JVal.str "ABC123456789"),
        ("ticket_holder_name", JVal.str "Ticket Holder Name"),
        ("seat", JVal.obj [("row", JVal.str "0"), ("seat_no", JVal.str "S")]) ]
      "event_name" = some (.str "Event Name") ∧
    dictLookup [("row", JVal.str "0"), ("seat_no", JVal.str "S")] "row" =
      some (.str "0") := by
  constructor
  · exact (C4_string_field_rule.1
      [("event_name", .str ""), ("banner", .str "B"),
        ("seat", .obj [("row", .str ""), ("seat_no", .str "S")])]
      [ ("event_name", JVal.str "Event Name"),
        ("banner", JVal.str "B"),
        ("main_image", JVal.str "http://farm4.staticflickr.com/3738/12440799783_3dc3c20606_b.jpg"),
        ("google_map_url", JVal.str "http://maps.google.com/"),
        ("header_text", JVal.str "Text module header"),
        ("body_text", JVal.str "Text module body"),
        ("phone_number", JVal.str "9876543210"),
        ("section", JVal.str "0"),
        ("issuer_name", JVal.str "Issuer Name"),
        ("gate", JVal.str "0"),
        ("ticket_number", JVal.str "ABC123456789"),
        ("ticket_holder_name", JVal.str "Ticket Holder Name"),
        ("seat", JVal.obj [("row", JVal.str "0"), ("seat_no", JVal.str "S")]) ]
      "event_name" (.str "Event Name") rfl rfl).1 rfl
  · obtain ⟨out, ho, he, _⟩ := C4_string_field_rule.2
      [("event_name", .str ""), ("banner", .str "B"),
        ("seat", .obj [("row", .str ""), ("seat_no", .str "S")])]
      [ ("event_name", JVal.str "Event Name"),
        ("banner", JVal.str "B"),
        ("main_image", JVal.str "http://farm4.staticflickr.com/3738/12440799783_3dc3c20606_b.jpg"),
        ("google_map_url", JVal.str "http://maps.google.com/"),
        ("header_text", JVal.str "Text module header"),
        ("body_text", JVal.str "Text module body"),
        ("phone_number", JVal.str "9876543210"),
        ("section", JVal.str "0"),
        ("issuer_name", JVal.str "Issuer Name"),
        ("gate", JVal.str "0"),
        ("ticket_number", JVal.str "ABC123456789"),
        ("ticket_holder_name", JVal.str "Ticket Holder Name"),
        ("seat", JVal.obj [("row", JVal.str "0"), ("seat_no", JVal.str "S")]) ]
      [("row", .str ""), ("seat_no", .str "S")]
      "row" "0" rfl rfl rfl
    have hseatlit : dictLookup
        [ ("event_name", JVal.str "Event Name"),
          ("banner", JVal.str "B"),
          ("main_image", JVal.str "http://farm4.staticflickr.com/3738/12440799783_3dc3c20606_b.jpg"),
          ("google_map_url", JVal.str "http://maps.google.com/"),
          ("header_text", JVal.str "Text module header"),
          ("body_text", JVal.str "Text module body"),
          ("phone_number", JVal.str "9876543210"),
          ("section", JVal.str "0"),
          ("issuer_name", JVal.str "Issuer Name"),
          ("gate", JVal.str "0"),
          ("ticket_number", JVal.str "ABC123456789"),
          ("ticket_holder_name", JVal.str "Ticket Holder Name"),
          ("seat", JVal.obj [("row", JVal.str "0"), ("seat_no", JVal.str "S")]) ]
        "seat" = some (.obj [("row", JVal.str "0"), ("seat_no", JVal.str "S")]) := rfl
    have hout := Option.some_injective _ (hseatlit.symm.trans ho)
    have hlist : [("row", JVal.str "0"), ("seat_no", JVal.str "S")] = out := by
      simpa using hout
    rw [hlist]
    exact he rfl

/-- Claim C5: the normalized record always carries exactly the default
keys; in particular no default key is ever missing from the output. -/
theorem C5_all_default_keys_present :
    ∀ (m r : PyDict), handle_options (.obj m) = .ok r →
      r.map Prod.fst = defaults.map Prod.fst ∧
      ∀ (k : String) (dv : JVal), dictLookup defaults k = some dv →
        (dictLookup r k).isSome := by
  intro m r h
  refine ⟨normalize_fields_keys _ _ _ h, ?_⟩
  intro k dv hk
  obtain ⟨v, _, hlr⟩ := normalize_fields_lookup (.obj m) defaults r k dv h hk
  simp [hlr]

/-- Claim C5, witness instance at the empty input dict. -/
theorem C5_witness :
    defaults.map Prod.fst = defaults.map Prod.fst ∧
    (dictLookup defaults "ticket_number").isSome := by
  have h := C5_all_default_keys_present [] defaults rfl
  exact ⟨h.1, h.2 "ticket_number" (.str "ABC123456789") rfl⟩

/-- Claim C6, counterexample: supplying a nested mapping for a field whose
default is a string makes handle_options raise (the dict unpacking over a
non-mapping default), so normalize is not total over input mappings. -/
theorem C6_counterexample :
    handle_options (.obj [("event_name", .obj [])]) = .error () := rfl

/-- Claim C6 (amended): handle_options never raises on an input mapping
unless the mapping supplies a nested mapping for a default field other
than seat (a field whose default is a string); a nested mapping at a key
outside the default set is harmless because the loop never reads it, and
it never raises for missing keys, strings, or values of any non-mapping
type. -/
theorem C6_total_unless_obj_on_string_field :
    ∀ (m : PyDict),
      (∀ (k : String) (vo : PyDict), dictLookup m k = some (.obj vo) →
        k = "seat" ∨ dictLookup defaults k = none) →
      (handle_options (.obj m)).isOk = true := by
  intro m hm
  have hall : ∀ p ∈ defaults, ∃ v, normalize_field (.obj m) p.1 p.2 = .ok v := by
    intro p hp
    rcases defaults_entry_shape p hp with ⟨hne, s, hs⟩ | ⟨hk, hv⟩
    · cases hv2 : dictLookup m p.1 with
      | none => exact ⟨p.2, normalize_field_absent _ _ _ hv2⟩
      | some w =>
        cases w with
        | str t => exact ⟨_, normalize_field_str _ _ _ _ hv2⟩
        | obj vo =>
          rcases hm p.1 vo hv2 with hseat | hnone
          · exact absurd hseat hne
          · exfalso
            have hsome := dictLookup_isSome_of_mem defaults p.1 p.2 hp
            rw [hnone] at hsome
            simp at hsome
        | null => exact ⟨_, normalize_field_other _ _ _ _ hv2 (by simp) (by simp)⟩
        | bool b => exact ⟨_, normalize_field_other _ _ _ _ hv2 (by simp) (by simp)⟩
        | num n => exact ⟨_, normalize_field_other _ _ _ _ hv2 (by simp) (by simp)⟩
        | arr xs => exact ⟨_, normalize_field_other _ _ _ _ hv2 (by simp) (by simp)⟩
    · cases hv2 : dictLookup m p.1 with
      | none => exact ⟨p.2, normalize_field_absent _ _ _ hv2⟩
      | some w =>
        cases w with
        | str t => exact ⟨_, normalize_field_str _ _ _ _ hv2⟩
        | obj vo =>
          rw [hv]
          exact ⟨_, normalize_field_obj _ _ _ _ hv2⟩
        | null => exact ⟨_, normalize_field_other _ _ _ _ hv2 (by simp) (by simp)⟩
        | bool b => exact ⟨_, normalize_field_other _ _ _ _ hv2 (by simp) (by simp)⟩
        | num n => exact ⟨_, normalize_field_other _ _ _ _ hv2 (by simp) (by simp)⟩
        | arr xs => exact ⟨_, normalize_field_other _ _ _ _ hv2 (by simp) (by simp)⟩
  obtain ⟨r, hr⟩ := normalize_fields_all_ok (.obj m) defaults hall
  unfold handle_options
  rw [hr]
  rfl

/-- Claim C6, witness instance: a mapping with a nested seat dict, a
numeric field, and a nested mapping at a key outside the default set
normalizes without raising. -/
theorem C6_witness :
    (handle_options (.obj [("seat", .obj [("row", .str "7")]),
      ("gate", .num 3), ("zzz", .obj [])])).isOk = true := by
  apply C6_total_unless_obj_on_string_field
  intro k vo h
  by_cases h1 : "seat" = k
  · exact Or.inl h1.symm
  · by_cases h2 : "zzz" = k
    · right
      rw [← h2]
      rfl
    · by_cases h3 : "gate" = k <;> simp [dictLookup, h1, h2, h3] at h

/-- Claim C9, counterexample: a non-mapping seat value is copied verbatim,
so the normalized seat attribute is not always a mapping with row and
seat_no entries (the claim says it always is). -/
theorem C9_counterexample :
    (handle_options (.obj [("seat", JVal.num 7)])).map
      (fun r => dictLookup r "seat") = .ok (some (JVal.num 7)) := rfl

/-- Claim C9 (amended): after normalization every default key is present;
absent and empty-string inputs are replaced by the per-field defaults, the
missing seat falls back to the default seat mapping, and whenever the
seat value supplied by the caller is itself a mapping whose row and seat_no entries are
absent or strings, the output seat is a mapping with non-empty row and
seat_no; a seat value of any other type is copied verbatim. -/
theorem C9_nonempty_invariant :
    ∀ (m r : PyDict), handle_options (.obj m) = .ok r →
      r.map Prod.fst = defaults.map Prod.fst ∧
      (∀ (k : String) (dv : JVal), dictLookup defaults k = some dv →
        dictLookup m k = none → dictLookup r k = some dv) ∧
      (∀ (k : String) (dv : JVal), dictLookup defaults k = some dv →
        dictLookup m k = some (.str "") → dictLookup r k = some dv) ∧
      (dictLookup m "seat" = none →
        dictLookup r "seat" = some (.obj seat_defaults)) ∧
      (∀ sm, dictLookup m "seat" = some (.obj sm) →
        ∃ out, dictLookup r "seat" = some (.obj out) ∧
          ((dictLookup sm "row" = none ∨
              (∃ w, dictLookup sm "row" = some (.str w))) →
            ∃ s, dictLookup out "row" = some (.str s) ∧ s ≠ "") ∧
          ((dictLookup sm "seat_no" = none ∨
              (∃ w, dictLookup sm "seat_no" = some (.str w))) →
            ∃ s, dictLookup out "seat_no" = some (.str s) ∧ s ≠ "")) := by
  intro m r h
  refine ⟨normalize_fields_keys _ _ _ h, ?_, ?_, ?_, ?_⟩
  · intro k dv hk hmk
    obtain ⟨v, hnf, hlr⟩ := normalize_fields_lookup (.obj m) defaults r k dv h hk
    have h2 := normalize_field_absent m k dv hmk
    rw [hnf] at h2
    simp at h2
    rw [hlr, h2]
  · intro k dv hk hmk
    obtain ⟨v, hnf, hlr⟩ := normalize_fields_lookup (.obj m) defaults r k dv h hk
    have h2 := normalize_field_str m k dv "" hmk
    rw [hnf] at h2
    simp at h2
    rw [hlr, h2]
  · intro hmk
    obtain ⟨v, hnf, hlr⟩ :=
      normalize_fields_lookup (.obj m) defaults r "seat" (.obj seat_defaults) h rfl
    have h2 := normalize_field_absent m "seat" (.obj seat_defaults) hmk
    rw [hnf] at h2
    simp at h2
    rw [hlr, h2]
  · intro sm hsm
    obtain ⟨v, hnf, hlr⟩ :=
      normalize_fields_lookup (.obj m) defaults r "seat" (.obj seat_defaults) h rfl
    have h2 := normalize_field_obj m "seat" seat_defaults sm hsm
    rw [hnf] at h2
    simp at h2
    refine ⟨fixEmptySub seat_defaults sm (mergePy seat_defaults sm), ?_, ?_, ?_⟩
    · rw [hlr, h2]
    · intro hcase
      rw [(fixEmptySub_seat_lookup sm).1]
      rcases hcase with hnone | ⟨w, hw⟩
      · exact ⟨"0", by simp [subResult, hnone], by decide⟩
      · by_cases hww : w = ""
        · subst hww
          exact ⟨"0", by simp [subResult, hw], by decide⟩
        · exact ⟨w, by simp [subResult, hw, hww], hww⟩
    · intro hcase
      rw [(fixEmptySub_seat_lookup sm).2]
      rcases hcase with hnone | ⟨w, hw⟩
      · exact ⟨"0", by simp [subResult, hnone], by decide⟩
      · by_cases hww : w = ""
        · subst hww
          exact ⟨"0", by simp [subResult, hw], by decide⟩
        · exact ⟨w, by simp [subResult, hw, hww], hww⟩

/-- Claim C9, witness instance: absent gate stays at its default and a
nested seat mapping with a string row yields a mapping output. -/
theorem C9_witness :
    dictLookup
      [ ("event_name", JVal.str "X"),
        ("banner", JVal.str "https://farm4.staticflickr.com/3723/11177041115_6e6a3b6f49_o.jpg"),
        ("main_image", JVal.str "http://farm4.staticflickr.com/3738/12440799783_3dc3c20606_b.jpg"),
        ("google_map_url", JVal.str "http://maps.google.com/"),
        ("header_text", JVal.str "Text module header"),
        ("body_text", JVal.str "Text module body"),
        ("phone_number", JVal.str "9876543210"),
        ("section", JVal.str "0"),
        ("issuer_name", JVal.str "Issuer Name"),
        ("gate", JVal.str "0"),
        ("ticket_number", JVal.str "ABC123456789"),
        ("ticket_holder_name", JVal.str "Ticket Holder Name"),
        ("seat", JVal.obj [("row", JVal.str "R"), ("seat_no", JVal.str "0")]) ]
      "gate" = some (.str "0") := by
  exact (C9_nonempty_invariant
    [("event_name", .str "X"), ("seat", .obj [("row", .str "R")])]
    [ ("event_name", JVal.str "X"),
      ("banner", JVal.str "https://farm4.staticflickr.com/3723/11177041115_6e6a3b6f49_o.jpg"),
      ("main_image", JVal.str "http://farm4.staticflickr.com/3738/12440799783_3dc3c20606_b.jpg"),
      ("google_map_url", JVal.str "http://maps.google.com/"),
      ("header_text", JVal.str "Text module header"),
      ("body_text", JVal.str "Text module body"),
      ("phone_number", JVal.str "9876543210"),
      ("section", JVal.str "0"),
      ("issuer_name", JVal.str "Issuer Name"),
      ("gate", JVal.str "0"),
      ("ticket_number", JVal.str "ABC123456789"),
      ("ticket_holder_name", JVal.str "Ticket Holder Name"),
      ("seat", JVal.obj [("row", JVal.str "R"), ("seat_no", JVal.str "0")]) ]
    rfl).2.1 "gate" (.str "0") rfl rfl

/-- When validation passes and the body normalizes, the first outbound
operation of the request is always the class creation. -/
theorem create_ticket_trace_head (req : HttpRequest) (b : Backend)
    (data : PyDict) (hmp : missing_params req = [])
    (hd : getData req.body = .ok data) :
    (create_ticket req b).2.head? = some WalletOp.createClass := by
  unfold create_ticket
  rw [hmp]
  simp only [ne_eq, not_true_eq_false, if_false, hd]
  cases h1 : DemoEventTicket.create_class b.classGet b.classInsert
      (req.issuer_id.getD "") (req.class_suffix.getD "") data with
  | error e => simp
  | ok r =>
    cases h2 : DemoEventTicket.create_object b.objectGet b.objectInsert
        (req.issuer_id.getD "") (req.class_suffix.getD "")
        (req.object_suffix.getD "") data with
    | error e => simp
    | ok o =>
      cases h3 : dictLookup o "has_error" with
      | none => simp [h3]
      | some v =>
        by_cases h4 : pyTruthy v <;> simp [h3, h4]

/-- Claim C10: when normalization of the supplied body raises, the
endpoint catches the exception and renormalizes from the empty dict, so
the whole payload is discarded, the request proceeds on the full default
record, and the class creation is still attempted. -/
theorem C10_exception_discards_payload :
    ∀ (req : HttpRequest) (b : Backend) (j : JVal),
      req.body = some j → handle_options j = .error () →
      missing_params req = [] →
      getData req.body = .ok defaults ∧
      (create_ticket req b).2.head? = some WalletOp.createClass := by
  intro req b j hb herr hmp
  have hd : getData req.body = .ok defaults := by
    rw [hb]
    simp only [getData, herr]
    rfl
  exact ⟨hd, create_ticket_trace_head req b defaults hmp hd⟩

/-- Claim C10, witness instance: a body whose event_name is a nested
mapping raises in normalization, and the validly supplied ticket_number in
the same body is silently lost — the record is the full default one. -/
theorem C10_witness :
    getData (some (.obj [("event_name", .obj []),
      ("ticket_number", .str "X")])) = .ok defaults ∧
    (create_ticket
      ⟨some "I", some "C", some "O",
        some (.obj [("event_name", .obj []), ("ticket_number", .str "X")])⟩
      ⟨.httpError 404 .null, .ok .null, .httpError 404 .null, .ok .null,
        "TOK"⟩).2.head? = some WalletOp.createClass := by
  have h := C10_exception_discards_payload
    ⟨some "I", some "C", some "O",
      some (.obj [("event_name", .obj []), ("ticket_number", .str "X")])⟩
    ⟨.httpError 404 .null, .ok .null, .httpError 404 .null, .ok .null, "TOK"⟩
    (.obj [("event_name", .obj []), ("ticket_number", .str "X")])
    rfl rfl rfl
  exact h

/-- Claim C7: a request missing any of the three identifiers gets an
HTTP 400 whose missing list enumerates exactly the missing identifiers
plus the fixed instructional message, and no wallet operation runs. -/
theorem C7_missing_params_400 :
    ∀ (req : HttpRequest) (b : Backend),
      (missing_params req ≠ [] →
        create_ticket req b =
          (⟨[ ("error", .str "Missing parameters"),
              ("missing", .arr ((missing_params req).map JVal.str)),
              ("message", .str "Please provide the required parameters: issuer_id, class_suffix, object_suffix.") ],
            400⟩, [])) ∧
      (∀ k : String, k ∈ missing_params req ↔
        ((k = "issuer_id" ∧ argMissing req.issuer_id = true) ∨
         (k = "class_suffix" ∧ argMissing req.class_suffix = true) ∨
         (k = "object_suffix" ∧ argMissing req.object_suffix = true))) := by
  intro req b
  constructor
  · intro hmp
    simp [create_ticket, hmp]
  · intro k
    unfold missing_params
    cases h1 : argMissing req.issuer_id <;>
      cases h2 : argMissing req.class_suffix <;>
        cases h3 : argMissing req.object_suffix <;> simp

/-- Claim C7, witness instance: omitting only object_suffix yields the 400
body whose missing list is exactly the object_suffix entry, with the empty
operation trace. -/
theorem C7_witness :
    create_ticket ⟨some "I", some "C", none, none⟩
        ⟨.httpError 404 .null, .ok .null, .ok .null, .ok .null, "TOK"⟩ =
      (⟨[ ("error", .str "Missing parameters"),
          ("missing", .arr [.str "object_suffix"]),
          ("message", .str "Please provide the required parameters: issuer_id, class_suffix, object_suffix.") ],
        400⟩, []) ∧
    "object_suffix" ∈ missing_params ⟨some "I", some "C", none, none⟩ := by
  constructor
  · exact (C7_missing_params_400 ⟨some "I", some "C", none, none⟩
      ⟨.httpError 404 .null, .ok .null, .ok .null, .ok .null, "TOK"⟩).1
      (by decide)
  · exact ((C7_missing_params_400 ⟨some "I", some "C", none, none⟩
      ⟨.httpError 404 .null, .ok .null, .ok .null, .ok .null, "TOK"⟩).2
      "object_suffix").mpr (Or.inr (Or.inr ⟨rfl, rfl⟩))

/-- Claim C8: with all identifiers present, an absent or non-mapping body
still yields the fully defaulted record, and the request proceeds to the
wallet calls instead of being rejected. -/
theorem C8_defaulted_body_proceeds :
    ∀ (req : HttpRequest) (b : Backend),
      missing_params req = [] →
      (req.body = none ∨ ∃ j, req.body = some j ∧ ∀ m, j ≠ JVal.obj m) →
      getData req.body = .ok defaults ∧
      (create_ticket req b).2.head? = some WalletOp.createClass ∧
      (create_ticket req b).1.status ≠ 400 := by
  intro req b hmp hbody
  have hd : getData req.body = .ok defaults := by
    rcases hbody with hb | ⟨j, hb, hnj⟩
    · rw [hb]; rfl
    · rw [hb]
      have hfield : ∀ p ∈ defaults,
          normalize_field j p.1 p.2 = .error () ∨
          normalize_field j p.1 p.2 = .ok p.2 :=
        fun p _ => normalize_field_nonobj j hnj p.1 p.2
      rcases normalize_fields_id_or_err j defaults hfield with h | h
      · simp only [getData, handle_options, h]
        rfl
      · simp only [getData, handle_options, h]
  refine ⟨hd, create_ticket_trace_head req b defaults hmp hd, ?_⟩
  unfold create_ticket
  rw [hmp]
  simp only [ne_eq, not_true_eq_false, if_false, hd]
  cases h1 : DemoEventTicket.create_class b.classGet b.classInsert
      (req.issuer_id.getD "") (req.class_suffix.getD "") defaults with
  | error e => simp
  | ok r =>
    cases h2 : DemoEventTicket.create_object b.objectGet b.objectInsert
        (req.issuer_id.getD "") (req.class_suffix.getD "")
        (req.object_suffix.getD "") defaults with
    | error e => simp
    | ok o =>
      cases h3 : dictLookup o "has_error" with
      | none => simp [h3]
      | some v =>
        by_cases h4 : pyTruthy v <;> simp [h3, h4]

/-- Claim C8, witness instance: all identifiers present and no body. -/
theorem C8_witness :
    getData (none : Option JVal) = .ok defaults ∧
    (create_ticket ⟨some "I", some "C", some "O", none⟩
      ⟨.httpError 404 .null, .ok .null, .httpError 404 .null, .ok .null,
        "TOK"⟩).2.head? = some WalletOp.createClass ∧
    (create_ticket ⟨some "I", some "C", some "O", none⟩
      ⟨.httpError 404 .null, .ok .null, .httpError 404 .null, .ok .null,
        "TOK"⟩).1.status ≠ 400 :=
  C8_defaulted_body_proceeds ⟨some "I", some "C", some "O", none⟩
    ⟨.httpError 404 .null, .ok .null, .httpError 404 .null, .ok .null, "TOK"⟩
    rfl (Or.inl rfl)

/-- Claim C1, counterexample: with the pass object already existing, the
response body is indeed the object-creation exists envelope, but the trace
shows the save-link JWT generation was attempted anyway (the claim says it
is never attempted). -/
theorem C1_jwt_attempted_despite_exists :
    (create_ticket ⟨some "I", some "C", some "O", none⟩
      ⟨.httpError 404 .null, .ok .null, .ok .null, .ok .null, "TOK"⟩).2 =
      [WalletOp.createClass, WalletOp.createObject, WalletOp.createJwtExisting] ∧
    dictLookup (create_ticket ⟨some "I", some "C", some "O", none⟩
      ⟨.httpError 404 .null, .ok .null, .ok .null, .ok .null, "TOK"⟩).1.body
      "status" = some (.str "exists") ∧
    WalletOp.createJwtExisting ∈
      (create_ticket ⟨some "I", some "C", some "O", none⟩
        ⟨.httpError 404 .null, .ok .null, .ok .null, .ok .null, "TOK"⟩).2 := by
  refine ⟨rfl, rfl, ?_⟩
  decide

/-- Claim C1 (amended): when the object already exists the response equals
the object-creation exists envelope with has_error true, but the save-link
JWT generation is nevertheless attempted (its result is discarded). -/
theorem C1_exists_response_is_object_envelope :
    ∀ (req : HttpRequest) (b : Backend) (data r : PyDict) (g : JVal),
      missing_params req = [] →
      getData req.body = .ok data →
      DemoEventTicket.create_class b.classGet b.classInsert
        (req.issuer_id.getD "") (req.class_suffix.getD "") data = .ok r →
      b.objectGet = .ok g →
      ∃ o, DemoEventTicket.create_object b.objectGet b.objectInsert
          (req.issuer_id.getD "") (req.class_suffix.getD "")
          (req.object_suffix.getD "") data = .ok o ∧
        (create_ticket req b).1 = ⟨o, 200⟩ ∧
        dictLookup o "status" = some (.str "exists") ∧
        dictLookup o "has_error" = some (.bool true) ∧
        WalletOp.createJwtExisting ∈ (create_ticket req b).2 := by
  intro req b data r g hmp hd hc hog
  have hobj : DemoEventTicket.create_object b.objectGet b.objectInsert
      (req.issuer_id.getD "") (req.class_suffix.getD "")
      (req.object_suffix.getD "") data = .ok
      [ ("object_id", .str (req.issuer_id.getD "" ++ "." ++ req.object_suffix.getD "")),
        ("status", .str "exists"),
        ("message", .str ("Object " ++ (req.issuer_id.getD "" ++ "." ++ req.object_suffix.getD "") ++ " already exists!")),
        ("has_error", .bool true) ] := by
    rw [hog]
    exact create_object_exists_envelope g b.objectInsert
      (req.issuer_id.getD "") (req.class_suffix.getD "")
      (req.object_suffix.getD "") data
  have hresp : create_ticket req b =
      (⟨[ ("object_id", .str (req.issuer_id.getD "" ++ "." ++ req.object_suffix.getD "")),
          ("status", .str "exists"),
          ("message", .str ("Object " ++ (req.issuer_id.getD "" ++ "." ++ req.object_suffix.getD "") ++ " already exists!")),
          ("has_error", .bool true) ], 200⟩,
        [WalletOp.createClass, WalletOp.createObject, WalletOp.createJwtExisting]) := by
    unfold create_ticket
    rw [hmp]
    simp only [ne_eq, not_true_eq_false, if_false, hd, hc, hobj]
    rfl
  refine ⟨_, hobj, ?_, rfl, rfl, ?_⟩
  · rw [hresp]
  · rw [hresp]
    simp

/-- Claim C1, witness instance of the amended theorem. -/
theorem C1_witness :
    dictLookup (create_ticket ⟨some "I", some "C", some "O", none⟩
      ⟨.httpError 404 .null, .ok .null, .ok .null, .ok .null, "TOK"⟩).1.body
      "has_error" = some (.bool true) ∧
    WalletOp.createJwtExisting ∈
      (create_ticket ⟨some "I", some "C", some "O", none⟩
        ⟨.httpError 404 .null, .ok .null, .ok .null, .ok .null, "TOK"⟩).2 := by
  obtain ⟨o, ho, hr, hs, hh, hm⟩ := C1_exists_response_is_object_envelope
    ⟨some "I", some "C", some "O", none⟩
    ⟨.httpError 404 .null, .ok .null, .ok .null, .ok .null, "TOK"⟩
    defaults _ .null rfl rfl rfl rfl
  constructor
  · rw [hr]
    exact hh
  · exact hm

/-- Claim C2: the class-creation result is requested but its error flag is
never inspected — two backends whose class outcomes differ (both without
an exception) produce identical responses and traces — and the response is
determined solely by the has_error flag of the object-creation result: the
object envelope when true, the save-link result otherwise. -/
theorem C2_response_ignores_class_result :
    ∀ (req : HttpRequest) (b bp : Backend) (data r rp : PyDict),
      missing_params req = [] →
      getData req.body = .ok data →
      DemoEventTicket.create_class b.classGet b.classInsert
        (req.issuer_id.getD "") (req.class_suffix.getD "") data = .ok r →
      DemoEventTicket.create_class bp.classGet bp.classInsert
        (req.issuer_id.getD "") (req.class_suffix.getD "") data = .ok rp →
      bp.objectGet = b.objectGet → bp.objectInsert = b.objectInsert →
      bp.token = b.token →
      create_ticket req b = create_ticket req bp ∧
      (∀ (o : PyDict) (he : Bool),
        DemoEventTicket.create_object b.objectGet b.objectInsert
          (req.issuer_id.getD "") (req.class_suffix.getD "")
          (req.object_suffix.getD "") data = .ok o →
        dictLookup o "has_error" = some (.bool he) →
        (create_ticket req b).1 =
          if he then ⟨o, 200⟩
          else ⟨DemoEventTicket.create_jwt_existing_objects b.token
            (req.issuer_id.getD "") (req.object_suffix.getD "")
            (req.class_suffix.getD ""), 200⟩) := by
  intro req b bp data r rp hmp hd hc hcp hog hoi htok
  constructor
  · unfold create_ticket
    rw [hmp]
    simp only [ne_eq, not_true_eq_false, if_false, hd, hc, hcp, hog, hoi, htok]
  · intro o he ho hhe
    unfold create_ticket
    rw [hmp]
    simp only [ne_eq, not_true_eq_false, if_false, hd, hc, ho, hhe]
    cases he <;> simp [pyTruthy]

/-- Claim C2, witness instance: a backend whose class creation succeeds
and one whose class already exists give the same successful save-link
response. -/
theorem C2_witness :
    create_ticket ⟨some "I", some "C", some "O", none⟩
        ⟨.httpError 404 .null, .ok .null, .httpError 404 .null, .ok .null, "TOK"⟩ =
      create_ticket ⟨some "I", some "C", some "O", none⟩
        ⟨.ok .null, .exn, .httpError 404 .null, .ok .null, "TOK"⟩ ∧
    (create_ticket ⟨some "I", some "C", some "O", none⟩
      ⟨.httpError 404 .null, .ok .null, .httpError 404 .null, .ok .null, "TOK"⟩).1 =
      ⟨[ ("status", .str "success"),
         ("message", .str "JWT successfully generated."),
         ("wallet_link", .str "https://pay.google.com/gp/v/save/TOK") ], 200⟩ := by
  have h := C2_response_ignores_class_result
    ⟨some "I", some "C", some "O", none⟩
    ⟨.httpError 404 .null, .ok .null, .httpError 404 .null, .ok .null, "TOK"⟩
    ⟨.ok .null, .exn, .httpError 404 .null, .ok .null, "TOK"⟩
    defaults _ _ rfl rfl rfl rfl rfl rfl rfl
  refine ⟨h.1, ?_⟩
  have h2 := h.2
    [ ("object_id", .str "I.O"),
      ("status", .str "created"),
      ("message", .str "Object created successfully."),
      ("has_error", .bool false),
      ("response", .null) ]
    false rfl rfl
  exact h2

end Wallet
